import Mathlib

set_option linter.unusedVariables false

/-!
Verification development for `src/main.py`: a minimal HTTP server built on raw
stream sockets, exposing a `/users` CRUD resource backed by a SQLite database
behind a lock-serialized gateway (`ThreadSafeDB`), plus a static `/about` page.

The embedding models one request's journey through `handle_client`:
decoding and splitting the raw bytes, parsing the first line and the query
string, dispatching on path and method, running the resource handlers against
an explicit database value, and serializing the JSON response envelope.
Python exceptions are modelled with `Except`; a possible backend failure of
`ThreadSafeDB.execute` (a `sqlite3.Error`) is modelled by an optional fault
message threaded into every datastore call.
-/

/-- Python exception values arising in the request-handling paths of
`main.py`: `ValueError` raised by the handlers and by `dict(...)`,
`sqlite3.Error` ("StorageError") from `ThreadSafeDB.execute`, and
`TypeError` / `KeyError` from dictionary-style access to a decoded JSON body. -/
inductive Exc where
  | valueError (msg : String)
  | storageError (msg : String)
  | typeError (msg : String)
  | keyError (msg : String)
deriving Repr, DecidableEq

/-- Python's `str(e)` for the exceptions above (for `KeyError` Python renders
the missing key in quotes). -/
def excMsg : Exc → String
  | .valueError m => m
  | .storageError m => m
  | .typeError m => m
  | .keyError m => "'" ++ m ++ "'"

/-- Python's `str.split(sep)` for a one-character separator, on character
lists: split at every character satisfying `p`, keeping empty segments. -/
def splitPred (p : Char → Bool) : List Char → List (List Char)
  | [] => [[]]
  | c :: cs =>
    if p c then [] :: splitPred p cs
    else
      match splitPred p cs with
      | [] => [[c]]
      | h :: t => (c :: h) :: t

/-- Python's `s.split('\r\n')` as used on the header block in
`handle_client` (line 84/88). -/
def splitCRLF : List Char → List (List Char)
  | [] => [[]]
  | '\r' :: '\n' :: cs => [] :: splitCRLF cs
  | c :: cs =>
    match splitCRLF cs with
    | [] => [[c]]
    | h :: t => (c :: h) :: t

/-- Python's `request_text.split('\r\n\r\n', 1)` from `handle_client`
(line 80): the header block, and the body when the blank-line separator
occurs (`parts[1] if len(parts) > 1 else None`). -/
def splitHeaderBody : List Char → List Char × Option (List Char)
  | [] => ([], none)
  | '\r' :: '\n' :: '\r' :: '\n' :: cs => ([], some cs)
  | c :: cs =>
    let r := splitHeaderBody cs
    (c :: r.1, r.2)

/-- Python's `header.split(': ', 1)` guarded by `': ' in header`
(`handle_client`, lines 89-90): the text before the first occurrence of
`": "` and everything after it, or `none` when the separator is absent. -/
def splitColonSpace : List Char → Option (List Char × List Char)
  | [] => none
  | ':' :: ' ' :: cs => some ([], cs)
  | c :: cs => (splitColonSpace cs).map (fun r => (c :: r.1, r.2))

/-- Python's argumentless `str.split()` used on the request line
(`handle_client`, line 85): split on whitespace runs, dropping empties. -/
def splitWs (l : List Char) : List (List Char) :=
  (splitPred (fun c => c.isWhitespace) l).filter (fun seg => !seg.isEmpty)

/-- Lowercase hexadecimal digit (also used for decimal digits below 10). -/
def hexDigit : Nat → Char
  | 0 => '0'
  | 1 => '1'
  | 2 => '2'
  | 3 => '3'
  | 4 => '4'
  | 5 => '5'
  | 6 => '6'
  | 7 => '7'
  | 8 => '8'
  | 9 => '9'
  | 10 => 'a'
  | 11 => 'b'
  | 12 => 'c'
  | 13 => 'd'
  | 14 => 'e'
  | 15 => 'f'
  | _ => '0'

/-- Fuel-driven decimal rendering of a natural number (most significant digit
first); the fuel `n + 1` always suffices. -/
def natReprAux : Nat → Nat → List Char
  | 0, _ => []
  | fuel + 1, n =>
    if n < 10 then [hexDigit n]
    else natReprAux fuel (n / 10) ++ [hexDigit (n % 10)]

/-- Python's `str` of a nonnegative integer, as characters. -/
def natReprChars (n : Nat) : List Char := natReprAux (n + 1) n

/-- Python's `str` of a nonnegative integer. -/
def natRepr (n : Nat) : String := ⟨natReprChars n⟩

/-- Python's `str` of an integer, as characters. -/
def intReprChars (i : Int) : List Char :=
  if i < 0 then '-' :: natReprChars i.natAbs else natReprChars i.toNat

mutual
/-- Values of the JSON fragment this server exchanges (decoded Python
objects on the input side, response payloads on the output side).
Arrays and objects are mutual inductives so that structural recursion and
induction over them stay elementary. -/
inductive JsonVal where
  | jnull
  | jbool (b : Bool)
  | jnum (n : Int)
  | jstr (s : String)
  | jarr (items : JsonList)
  | jobj (fields : JsonObj)
inductive JsonList where
  | nil
  | cons (hd : JsonVal) (tl : JsonList)
inductive JsonObj where
  | nil
  | cons (key : String) (val : JsonVal) (tl : JsonObj)
end

deriving instance Repr for JsonVal, JsonList, JsonObj

/-- Build a `JsonList` from a Lean list. -/
def JsonList.ofList : List JsonVal → JsonList
  | [] => .nil
  | x :: xs => .cons x (JsonList.ofList xs)

/-- Build a `JsonObj` from a Lean association list (field order preserved,
as Python dicts preserve insertion order). -/
def JsonObj.ofList : List (String × JsonVal) → JsonObj
  | [] => .nil
  | (k, v) :: xs => .cons k v (JsonObj.ofList xs)

/-- Convenience constructor for object payloads. -/
def jObj (fields : List (String × JsonVal)) : JsonVal := .jobj (JsonObj.ofList fields)

/-- Convenience constructor for array payloads. -/
def jArr (items : List JsonVal) : JsonVal := .jarr (JsonList.ofList items)

/-- Key membership in a JSON object (Python `key in dict`). -/
def objHasKey : JsonObj → String → Bool
  | .nil, _ => false
  | .cons k _ t, key => k = key || objHasKey t key

/-- Last-wins lookup in a JSON object, matching Python dict semantics when
`json.loads` meets duplicate keys (the later value wins). -/
def objGetAux (acc : JsonVal) : JsonObj → String → JsonVal
  | .nil, _ => acc
  | .cons k v t, key => objGetAux (if k = key then v else acc) t key

/-- Python `dict[key]` value for a key known to be present. -/
def objGet (o : JsonObj) (key : String) : JsonVal := objGetAux .jnull o key

/-- Membership of the string `key` in a JSON array (Python `x in list`). -/
def arrHasStr : JsonList → String → Bool
  | .nil, _ => false
  | .cons (.jstr s) t, key => s = key || arrHasStr t key
  | .cons _ t, key => arrHasStr t key

/-- Does `n` occur as a contiguous run inside `h` (substring test on
character lists)? -/
def tailsContains (n : List Char) : List Char → Bool
  | [] => n.isEmpty
  | c :: cs => n.isPrefixOf (c :: cs) || tailsContains n cs

/-- Python's `key in data` on a decoded JSON value: key membership for dicts,
element membership for lists, substring test for strings, and a `TypeError`
for the non-container types. -/
def pyIn (key : String) : JsonVal → Except Exc Bool
  | .jobj fields => .ok (objHasKey fields key)
  | .jarr items => .ok (arrHasStr items key)
  | .jstr s => .ok (tailsContains key.data s.data)
  | _ => .error (.typeError "argument of type is not iterable")

/-- Python's `data[key]` on a decoded JSON value: dict lookup (a `KeyError`
when absent, unreachable in `main.py` because every access is guarded by a
membership check), and a `TypeError` for the other types. -/
def pyIndex (data : JsonVal) (key : String) : Except Exc JsonVal :=
  match data with
  | .jobj fields => if objHasKey fields key then .ok (objGet fields key) else .error (.keyError key)
  | .jarr _ => .error (.typeError "list indices must be integers or slices, not str")
  | .jstr _ => .error (.typeError "string indices must be integers")
  | _ => .error (.typeError "object is not subscriptable")

/-- JSON whitespace skipping, as in Python's `json` scanner (space, tab,
newline, carriage return). -/
def skipWs : List Char → List Char
  | [] => []
  | c :: cs => if c = ' ' || c = '\t' || c = '\n' || c = '\r' then skipWs cs else c :: cs

/-- The single-character string escapes accepted by Python's `json` decoder
(`\uXXXX` escapes are not modelled; no claim depends on them). -/
def unescapeChar : Char → Option Char
  | '"' => some '"'
  | '\\' => some '\\'
  | '/' => some '/'
  | 'b' => some '\x08'
  | 'f' => some '\x0c'
  | 'n' => some '\n'
  | 'r' => some '\r'
  | 't' => some '\t'
  | _ => none

/-- Scan a JSON string body after the opening quote: the decoded characters
and the rest of the input after the closing quote. Raw control characters
are rejected, as in Python's strict decoder. -/
def parseStringBody : List Char → Option (List Char × List Char)
  | [] => none
  | '"' :: rest => some ([], rest)
  | '\\' :: e :: rest =>
    (unescapeChar e).bind (fun c => (parseStringBody rest).map (fun r => (c :: r.1, r.2)))
  | c :: rest =>
    if c.toNat < 0x20 then none
    else (parseStringBody rest).map (fun r => (c :: r.1, r.2))

/-- Accumulate a run of decimal digits. -/
def readDigitsAux : List Char → Nat → Nat × List Char
  | [], acc => (acc, [])
  | c :: cs, acc =>
    if c.isDigit then readDigitsAux cs (acc * 10 + (c.toNat - 48)) else (acc, c :: cs)

/-- Parse a JSON integer literal (at least one digit required). -/
def parseNumTail : List Char → Option (Nat × List Char)
  | [] => none
  | c :: cs => if c.isDigit then some (readDigitsAux (c :: cs) 0) else none

mutual
/-- Recursive-descent JSON value parser (fuel-driven), modelling Python's
`json` scanner on the fragment in `JsonVal`. -/
def parseVal : Nat → List Char → Option (JsonVal × List Char)
  | 0, _ => none
  | fuel + 1, cs =>
    match skipWs cs with
    | 'n' :: 'u' :: 'l' :: 'l' :: rest => some (.jnull, rest)
    | 't' :: 'r' :: 'u' :: 'e' :: rest => some (.jbool true, rest)
    | 'f' :: 'a' :: 'l' :: 's' :: 'e' :: rest => some (.jbool false, rest)
    | '"' :: rest => (parseStringBody rest).map (fun r => (.jstr ⟨r.1⟩, r.2))
    | '[' :: rest =>
      match skipWs rest with
      | ']' :: rest2 => some (.jarr .nil, rest2)
      | rest2 => (parseItems fuel rest2).map (fun r => (.jarr r.1, r.2))
    | '\x7b' :: rest =>
      match skipWs rest with
      | '\x7d' :: rest2 => some (.jobj .nil, rest2)
      | rest2 => (parseFields fuel rest2).map (fun r => (.jobj r.1, r.2))
    | '-' :: rest => (parseNumTail rest).map (fun r => (.jnum (-(r.1 : Int)), r.2))
    | c :: rest =>
      if c.isDigit then (parseNumTail (c :: rest)).map (fun r => (.jnum (r.1 : Int), r.2))
      else none
    | [] => none
/-- Comma-separated array items up to the closing bracket. -/
def parseItems : Nat → List Char → Option (JsonList × List Char)
  | 0, _ => none
  | fuel + 1, cs =>
    match parseVal fuel cs with
    | none => none
    | some (v, rest) =>
      match skipWs rest with
      | ',' :: rest2 => (parseItems fuel rest2).map (fun r => (.cons v r.1, r.2))
      | ']' :: rest2 => some (.cons v .nil, rest2)
      | _ => none
/-- Comma-separated `"key": value` fields up to the closing brace. -/
def parseFields : Nat → List Char → Option (JsonObj × List Char)
  | 0, _ => none
  | fuel + 1, cs =>
    match skipWs cs with
    | '"' :: rest =>
      match parseStringBody rest with
      | none => none
      | some (k, rest2) =>
        match skipWs rest2 with
        | ':' :: rest3 =>
          match parseVal fuel rest3 with
          | none => none
          | some (v, rest4) =>
            match skipWs rest4 with
            | ',' :: rest5 => (parseFields fuel rest5).map (fun r => (.cons ⟨k⟩ v r.1, r.2))
            | '\x7d' :: rest5 => some (.cons ⟨k⟩ v .nil, rest5)
            | _ => none
        | _ => none
    | _ => none
end

/-- Model of Python's `json.loads` on the JSON fragment this server
exchanges: objects, arrays, strings with single-character escapes, integer
numbers, booleans and null. Fraction/exponent number forms and `\u` escapes
are not modelled (no claim depends on them). `json.loads` raises
`json.JSONDecodeError` exactly when the result is `none`. -/
def jsonLoads (s : String) : Option JsonVal :=
  match parseVal (2 * s.data.length + 2) s.data with
  | some (v, rest) => if skipWs rest = [] then some v else none
  | none => none

/-- One character of `json.dumps` output with the default `ensure_ascii=True`:
quote and backslash get their short escapes, printable ASCII stays, the short
control escapes apply, everything else becomes `\uXXXX` escapes (a surrogate
pair beyond the basic multilingual plane). -/
def escCharList (c : Char) : List Char :=
  if c = '"' then ['\\', '"']
  else if c = '\\' then ['\\', '\\']
  else if 0x20 ≤ c.toNat ∧ c.toNat ≤ 0x7e then [c]
  else if c = '\n' then ['\\', 'n']
  else if c = '\t' then ['\\', 't']
  else if c = '\r' then ['\\', 'r']
  else if c.toNat = 8 then ['\\', 'b']
  else if c.toNat = 12 then ['\\', 'f']
  else if c.toNat < 0x10000 then
    '\\' :: 'u' :: [hexDigit (c.toNat / 4096 % 16), hexDigit (c.toNat / 256 % 16),
                    hexDigit (c.toNat / 16 % 16), hexDigit (c.toNat % 16)]
  else
    let n := c.toNat - 0x10000
    let hi := 0xd800 + n / 0x400
    let lo := 0xdc00 + n % 0x400
    ('\\' :: 'u' :: [hexDigit (hi / 4096 % 16), hexDigit (hi / 256 % 16),
                     hexDigit (hi / 16 % 16), hexDigit (hi % 16)]) ++
      ('\\' :: 'u' :: [hexDigit (lo / 4096 % 16), hexDigit (lo / 256 % 16),
                       hexDigit (lo / 16 % 16), hexDigit (lo % 16)])

/-- `json.dumps` of a string value, as characters. -/
def dumpStrChars (s : String) : List Char :=
  '"' :: (s.data.flatMap escCharList ++ ['"'])

mutual
/-- `json.dumps` with the default separators `', '` and `': '` and
`ensure_ascii=True`, as used by `HTTPServer._send_response` (line 351),
producing the serialized characters. -/
def dumpChars : JsonVal → List Char
  | .jnull => ['n', 'u', 'l', 'l']
  | .jbool true => ['t', 'r', 'u', 'e']
  | .jbool false => ['f', 'a', 'l', 's', 'e']
  | .jnum n => intReprChars n
  | .jstr s => dumpStrChars s
  | .jarr items => '[' :: (dumpListChars items ++ [']'])
  | .jobj fields => '\x7b' :: (dumpObjChars fields ++ ['\x7d'])
/-- Array items joined with the `', '` item separator. -/
def dumpListChars : JsonList → List Char
  | .nil => []
  | .cons x .nil => dumpChars x
  | .cons x (.cons y t) => dumpChars x ++ (',' :: ' ' :: dumpListChars (.cons y t))
/-- Object fields joined with `', '`, each key and value joined with `': '`. -/
def dumpObjChars : JsonObj → List Char
  | .nil => []
  | .cons k v .nil => dumpStrChars k ++ (':' :: ' ' :: dumpChars v)
  | .cons k v (.cons k2 v2 t) =>
    dumpStrChars k ++
      (':' :: ' ' :: (dumpChars v ++ (',' :: ' ' :: dumpObjChars (.cons k2 v2 t))))
end

/-- `json.dumps` as a string. -/
def jsonDumps (v : JsonVal) : String := ⟨dumpChars v⟩

/-- Size in bytes of one character under UTF-8 encoding. -/
def charUtf8Size (c : Char) : Nat :=
  if c.toNat < 0x80 then 1
  else if c.toNat < 0x800 then 2
  else if c.toNat < 0x10000 then 3
  else 4

/-- Byte length of the UTF-8 encoding of a string — the length of Python's
`s.encode('utf-8')`. -/
def utf8Len (s : String) : Nat := (s.data.map charUtf8Size).sum

/-- The response envelope of `HTTPServer._send_response` (lines 347-350):
`{'status_code': status_code, 'data': content}`. -/
def envelope (statusCode : Nat) (content : JsonVal) : JsonVal :=
  jObj [("status_code", .jnum (statusCode : Int)), ("data", content)]

/-- `HTTPServer._send_response` (lines 345-360): serialize the envelope,
then emit the header block and the body as the single `sendall` payload.
The `Content-Length` value is Python's `len(json_response)` — the character
count of the serialized string. -/
def sendResponse (statusCode : Nat) (content : JsonVal) : String :=
  let jsonResponse := jsonDumps (envelope statusCode content)
  "HTTP/1.1 " ++ natRepr statusCode ++ "\r\n" ++
    "Content-Type: application/json" ++ "\r\n" ++
    "Content-Length: " ++ natRepr jsonResponse.length ++ "\r\n" ++
    "\r\n" ++ jsonResponse

/-- One row of the `users` table: `id INTEGER PRIMARY KEY AUTOINCREMENT`,
with `email`, `password`, `message` all `TEXT NOT NULL` (see `_init_db`,
lines 20-27). -/
structure UserRow where
  id : Nat
  email : String
  password : String
  message : String
deriving Repr, DecidableEq

/-- The state of the SQLite database behind `ThreadSafeDB`: the rows of the
`users` table in their stored order, and the next rowid the AUTOINCREMENT
column will assign. -/
structure DB where
  rows : List UserRow
  nextId : Nat
deriving Repr, DecidableEq

/-- The freshly created database: no rows, first id 1. -/
def dbEmpty : DB := { rows := [], nextId := 1 }

/-- Projection of a row onto the columns of `SELECT id, email, message`. -/
def rowTriple (r : UserRow) : Nat × String × String := (r.id, r.email, r.message)

/-- Value of a non-empty all-digit character list, or `none`. -/
def decDigitsVal : List Char → Nat → Option Nat
  | [], acc => some acc
  | c :: cs, acc => if c.isDigit then decDigitsVal cs (acc * 10 + (c.toNat - 48)) else none

/-- The natural number a canonical decimal string denotes, or `none`. -/
def strToNatQ (s : String) : Option Nat :=
  match s.data with
  | [] => none
  | _ => decDigitsVal s.data 0

/-- Does the row match `WHERE id = ?` with the given string parameter?
SQLite's INTEGER column affinity converts a canonical decimal string to the
integer it denotes; a non-numeric string matches no row. -/
def idMatches (idStr : String) (r : UserRow) : Bool :=
  decide (strToNatQ idStr = some r.id)

/-- `ThreadSafeDB.execute` for `SELECT id, email, message FROM users WHERE
id = ?` with `fetch=True` (`_get_users`, lines 132-136). The `fail` argument
models a `sqlite3.Error` raised by the backend: when present, every call
fails with that message. -/
def dbExecSelectById (fail : Option String) (db : DB) (idStr : String) :
    Except Exc (List (Nat × String × String)) :=
  match fail with
  | some m => .error (.storageError m)
  | none => .ok ((db.rows.filter (idMatches idStr)).map rowTriple)

/-- `ThreadSafeDB.execute` for `SELECT id, email, message FROM users` with
`fetch=True` (`_get_users`, lines 148-151). -/
def dbExecSelectAll (fail : Option String) (db : DB) :
    Except Exc (List (Nat × String × String)) :=
  match fail with
  | some m => .error (.storageError m)
  | none => .ok (db.rows.map rowTriple)

/-- SQLite parameter binding of a decoded JSON value into a TEXT column, as
performed inside `cursor.execute`: strings bind directly; ints and bools
(Python ints) are stored under TEXT affinity as their decimal rendering;
`None` violates the NOT NULL constraint; lists and dicts are unsupported
binding types. -/
def bindParam : JsonVal → Except Exc String
  | .jstr s => .ok s
  | .jnum n => .ok ⟨intReprChars n⟩
  | .jbool b => .ok (if b then "1" else "0")
  | .jnull => .error (.storageError "NOT NULL constraint failed: users")
  | _ => .error (.typeError "Error binding parameter")

/-- The INSERT applied to the database state: append the new row with the
next AUTOINCREMENT id; `lastrowid` is that id. -/
def dbInsertRow (db : DB) (email password message : String) : DB × Nat :=
  ({ rows := db.rows ++ [{ id := db.nextId, email := email, password := password, message := message }],
     nextId := db.nextId + 1 }, db.nextId)

/-- `ThreadSafeDB.execute` for `INSERT INTO users (email, password, message)
VALUES (?, ?, ?)` with `fetch=False` (`_create_user`, lines 173-176),
returning `lastrowid`. -/
def dbExecInsert (fail : Option String) (db : DB) (e p m : JsonVal) :
    Except Exc (DB × Nat) :=
  match fail with
  | some msg => .error (.storageError msg)
  | none =>
    match bindParam e with
    | .error err => .error err
    | .ok es =>
      match bindParam p with
      | .error err => .error err
      | .ok ps =>
        match bindParam m with
        | .error err => .error err
        | .ok ms => .ok (dbInsertRow db es ps ms)

/-- The DELETE applied to the database state: drop every matching row
(no existence check). -/
def dbDeleteRows (db : DB) (idStr : String) : DB :=
  { db with rows := db.rows.filter (fun r => !idMatches idStr r) }

/-- `ThreadSafeDB.execute` for `DELETE FROM users WHERE id = ?`
(`_delete_user`, line 192). -/
def dbExecDelete (fail : Option String) (db : DB) (idStr : String) :
    Except Exc DB :=
  match fail with
  | some m => .error (.storageError m)
  | none => .ok (dbDeleteRows db idStr)

/-- Apply one `field = ?` assignment of an UPDATE statement to a row. -/
def setField (f v : String) (r : UserRow) : UserRow :=
  if f = "email" then { r with email := v }
  else if f = "password" then { r with password := v }
  else if f = "message" then { r with message := v }
  else r

/-- Apply the assignment list of an UPDATE statement, left to right. -/
def applySets : List (String × String) → UserRow → UserRow
  | [], r => r
  | (f, v) :: rest, r => applySets rest (setField f v r)

/-- Bind the UPDATE parameters in order (see `bindParam`). -/
def bindSets : List (String × JsonVal) → Except Exc (List (String × String))
  | [] => .ok []
  | (f, x) :: rest =>
    match bindParam x with
    | .error e => .error e
    | .ok v => (bindSets rest).map (fun l => (f, v) :: l)

/-- The UPDATE applied to the database state: rewrite every matching row
with the bound assignments (no existence check). -/
def dbUpdateRows (db : DB) (idStr : String) (vals : List (String × String)) : DB :=
  { db with rows := db.rows.map (fun r => if idMatches idStr r then applySets vals r else r) }

/-- `ThreadSafeDB.execute` for `UPDATE users SET ... WHERE id = ?` built by
`_update_user` (lines 206-225) from the supplied fields. -/
def dbExecUpdate (fail : Option String) (db : DB) (sets : List (String × JsonVal))
    (idStr : String) : Except Exc DB :=
  match fail with
  | some m => .error (.storageError m)
  | none =>
    match bindSets sets with
    | .error e => .error e
    | .ok vals => .ok (dbUpdateRows db idStr vals)

/-- Query parameters / headers mapping (a Python dict of strings; lookups
take the last binding of a key, matching dict overwrite semantics). -/
abbrev Params := List (String × String)

/-- Python `dict.get(key)`: the last value bound to `key`, if any. -/
def dictGet (kvs : Params) (key : String) : Option String :=
  kvs.foldl (fun acc p => if p.1 = key then some p.2 else acc) none

/-- Python truthiness of `dict.get` results: `None` and the empty string are
falsy, every other string is truthy. -/
def truthy : Option String → Bool
  | none => false
  | some s => decide (s ≠ "")

/-- The `dict(...)` constructor applied to the split query pairs in
`HTTPServer._parse_parameters` (line 343): each pair must split on `'='`
into exactly two parts, otherwise `dict` raises `ValueError` (a pair kept by
the `'=' in param` filter but containing two or more `'='` characters splits
into three or more parts). -/
def dictOfPairs : List (List Char) → Except Exc Params
  | [] => .ok []
  | p :: rest =>
    match splitPred (fun c => c = '=') p with
    | [k, v] => (dictOfPairs rest).map (fun kvs => ((⟨k⟩ : String), (⟨v⟩ : String)) :: kvs)
    | _ => .error (.valueError "dictionary update sequence element has invalid length")

/-- `HTTPServer._parse_parameters` (lines 341-343):
`dict(param.split('=') for param in params_str.split('&') if '=' in param)`. -/
def parseParameters (s : String) : Except Exc Params :=
  dictOfPairs ((splitPred (fun c => c = '&') s.data).filter (fun p => p.contains '='))

/-- The `{'error': msg}` payload shape used by every failure response. -/
def errObj (msg : String) : JsonVal := jObj [("error", .jstr msg)]

/-- The single-user payload of `_get_users` (lines 139-143): the `id`,
`email`, `message` columns of a fetched row. -/
def rowObj (u : Nat × String × String) : JsonVal :=
  jObj [("id", .jnum (u.1 : Int)), ("email", .jstr u.2.1), ("message", .jstr u.2.2)]

/-- `HTTPServer._get_users` (lines 128-162): with a truthy `id` query
parameter, fetch the matching rows and answer 200 with the first row or 404
when none matched; otherwise fetch every row and answer 200 with the
`{count, users}` listing. -/
def getUsers (fail : Option String) (db : DB) (params : Params) :
    Except Exc (DB × Nat × JsonVal) :=
  let userId := dictGet params "id"
  if truthy userId then
    match dbExecSelectById fail db (userId.getD "") with
    | .error e => .error e
    | .ok [] => .ok (db, 404, errObj "User not found")
    | .ok (u :: _) => .ok (db, 200, rowObj u)
  else
    match dbExecSelectAll fail db with
    | .error e => .error e
    | .ok users =>
      .ok (db, 200, jObj [("count", .jnum (users.length : Int)),
                          ("users", jArr (users.map rowObj))])

/-- Python's `all(key in data for key in [...])` from `_create_user`
(line 170): short-circuiting conjunction of `in` tests. -/
def allKeysIn (data : JsonVal) : List String → Except Exc Bool
  | [] => .ok true
  | k :: rest =>
    match pyIn k data with
    | .error e => .error e
    | .ok false => .ok false
    | .ok true => allKeysIn data rest

/-- `HTTPServer._create_user` (lines 164-185): reject an empty body, decode
the JSON (a decode failure is re-raised as `ValueError "Invalid JSON
format"`), require the `email`, `password`, `message` fields, insert, and
answer 201 with the new id. -/
def createUser (fail : Option String) (db : DB) (body : Option String) :
    Except Exc (DB × Nat × JsonVal) :=
  match body with
  | none => .error (.valueError "Request body is empty")
  | some b =>
    if b = "" then .error (.valueError "Request body is empty")
    else
      match jsonLoads b with
      | none => .error (.valueError "Invalid JSON format")
      | some data =>
        match allKeysIn data ["email", "password", "message"] with
        | .error e => .error e
        | .ok false => .error (.valueError "Missing required fields: email, password, message")
        | .ok true =>
          match pyIndex data "email" with
          | .error e => .error e
          | .ok ev =>
            match pyIndex data "password" with
            | .error e => .error e
            | .ok pv =>
              match pyIndex data "message" with
              | .error e => .error e
              | .ok mv =>
                match dbExecInsert fail db ev pv mv with
                | .error e => .error e
                | .ok (db2, newId) =>
                  .ok (db2, 201, jObj [("message", .jstr "User created successfully"),
                                       ("user_id", .jnum (newId : Int))])

/-- `HTTPServer._delete_user` (lines 187-194): reject a falsy `id` query
parameter, delete unconditionally (no existence check), and answer 200 with
a confirmation naming the id. -/
def deleteUser (fail : Option String) (db : DB) (params : Params) :
    Except Exc (DB × Nat × JsonVal) :=
  let userId := dictGet params "id"
  if truthy userId = false then .error (.valueError "Missing user id parameter")
  else
    let s := userId.getD ""
    match dbExecDelete fail db s with
    | .error e => .error e
    | .ok db2 => .ok (db2, 200, jObj [("message", .jstr ("User " ++ s ++ " deleted"))])

/-- The three `if 'field' in data` blocks of `_update_user` (lines 209-217),
collecting the supplied fields in the fixed order email, password, message
(each suffix of the UPDATE statement together with its parameter). -/
def collectUpdatesAux (data : JsonVal) : List String → Except Exc (List (String × JsonVal))
  | [] => .ok []
  | f :: rest =>
    match pyIn f data with
    | .error e => .error e
    | .ok false => collectUpdatesAux data rest
    | .ok true =>
      match pyIndex data f with
      | .error e => .error e
      | .ok v => (collectUpdatesAux data rest).map (fun l => (f, v) :: l)

/-- The assignments `_update_user` builds from a decoded body. -/
def collectUpdates (data : JsonVal) : Except Exc (List (String × JsonVal)) :=
  collectUpdatesAux data ["email", "password", "message"]

/-- `HTTPServer._update_user` (lines 196-230): reject a falsy `id` query
parameter, then an empty body, decode the JSON (a decode failure becomes
`ValueError "Invalid JSON format"`), reject an update with no recognized
field, apply the UPDATE unconditionally, and answer 200 with a confirmation
naming the id. -/
def updateUser (fail : Option String) (db : DB) (params : Params) (body : Option String) :
    Except Exc (DB × Nat × JsonVal) :=
  let userId := dictGet params "id"
  if truthy userId = false then .error (.valueError "Missing user id parameter")
  else
    match body with
    | none => .error (.valueError "Request body is empty")
    | some b =>
      if b = "" then .error (.valueError "Request body is empty")
      else
        match jsonLoads b with
        | none => .error (.valueError "Invalid JSON format")
        | some data =>
          match collectUpdates data with
          | .error e => .error e
          | .ok [] => .error (.valueError "No fields to update")
          | .ok sets =>
            match dbExecUpdate fail db sets (userId.getD "") with
            | .error e => .error e
            | .ok db2 =>
              .ok (db2, 200, jObj [("message", .jstr ("User " ++ userId.getD "" ++ " updated"))])

/-- The `except Exception` boundary of `_handle_users` (lines 124-126):
a normal handler result passes through; any exception becomes a 400 response
carrying `str(e)` as the error field, with the database untouched. -/
def usersWrap (db : DB) (r : Except Exc (DB × Nat × JsonVal)) : DB × Nat × JsonVal :=
  match r with
  | .ok v => v
  | .error e => (db, 400, errObj (excMsg e))

/-- `HTTPServer._handle_users` (lines 112-126): dispatch on the method
(GET, POST, DELETE, PATCH, otherwise 405), catching every handler exception
into a 400 response. -/
def handleUsers (fail : Option String) (db : DB) (method : String) (params : Params)
    (body : Option String) : DB × Nat × JsonVal :=
  usersWrap db
    (if method = "GET" then getUsers fail db params
     else if method = "POST" then createUser fail db body
     else if method = "DELETE" then deleteUser fail db params
     else if method = "PATCH" then updateUser fail db params body
     else .ok (db, 405, errObj "Method not allowed"))

/-- A response written back on the socket: a JSON envelope via
`_send_response`, or the `/about` HTML page via `_about` (whose
time-dependent template content the spec scopes out as trivial glue; the
claims only observe that the about handler ran). -/
inductive HTTPResponse where
  | json (status : Nat) (payload : JsonVal)
  | htmlAbout
deriving Repr

/-- The routing block of `handle_client` (lines 99-104): `/about` first
(whatever the method), then `/users` keyed on the method, then 404. -/
def dispatch (fail : Option String) (db : DB) (method path : String) (params : Params)
    (body : Option String) : DB × HTTPResponse :=
  if path = "/about" then (db, .htmlAbout)
  else if path = "/users" then
    let r := handleUsers fail db method params body
    (r.1, .json r.2.1 r.2.2)
  else (db, .json 404 (errObj "Path not found"))

/-- The header mapping built by `handle_client` (lines 87-91): every line
containing `': '` contributes a binding, later duplicates overwriting. -/
def buildHeadersDict (ls : List (List Char)) : Params :=
  ls.filterMap (fun l => (splitColonSpace l).map (fun r => ((⟨r.1⟩ : String), (⟨r.2⟩ : String))))

/-- The parsing part of `handle_client` after the blank-line split
(lines 84-97), from the first header line and the optional body: unpack the
request line into exactly three whitespace-separated tokens (otherwise the
`ValueError` of tuple unpacking), and split the path at the first `'?'`,
parsing the query string. -/
def requestOfParts (firstLine : List Char) (body : Option (List Char)) :
    Except Exc (String × String × Params × Option String) :=
  match splitWs firstLine with
  | [m, p, _] =>
    if p.contains '?' then
      match parseParameters ⟨(p.dropWhile (fun c => !(c = '?'))).drop 1⟩ with
      | .error e => .error e
      | .ok params =>
        .ok ((⟨m⟩ : String), (⟨p.takeWhile (fun c => !(c = '?'))⟩ : String), params,
             body.map (fun l => (⟨l⟩ : String)))
    else .ok ((⟨m⟩ : String), (⟨p⟩ : String), [], body.map (fun l => (⟨l⟩ : String)))
  | _ => .error (.valueError "values to unpack mismatch")

/-- The first request line (`headers.split('\r\n')[0]`, line 84). -/
def firstLineOf (raw : String) : List Char :=
  (splitCRLF (splitHeaderBody raw.data).1).headD []

/-- The request body text after the first blank line, when present. -/
def bodyOf (raw : String) : Option (List Char) :=
  (splitHeaderBody raw.data).2

/-- Lines 80-97 of `handle_client`: split the raw text into header block and
body, split the header block into lines, build the (unused) header mapping,
and parse the request line and query string. -/
def parsedRequest (raw : String) : Except Exc (String × String × Params × Option String) :=
  let pr := splitHeaderBody raw.data
  let lines := splitCRLF pr.1
  let headersDict := buildHeadersDict (lines.drop 1)
  requestOfParts (lines.headD []) pr.2

/-- `HTTPServer.handle_client` (lines 73-110) for a single request whose
socket I/O succeeds: an empty read returns without responding; any exception
escaping parsing or routing becomes the generic 500 response; otherwise the
routed response is sent. The result pairs the database state after the
request with the response written. -/
def handleClient (fail : Option String) (db : DB) (raw : String) :
    Option (DB × HTTPResponse) :=
  if raw = "" then none
  else some
    (match parsedRequest raw with
     | .ok (m, p, params, body) => dispatch fail db m p params body
     | .error _ => (db, .json 500 (errObj "Internal server error")))

/-- A one-user database (id 1) for concrete counterexamples. -/
def dbOne : DB :=
  { rows := [{ id := 1, email := "a@b.com", password := "x", message := "hi" }], nextId := 2 }

/-- The `{count, users}` listing payload `_get_users` builds for a database
state (lines 152-161). -/
def listPayload (db : DB) : JsonVal :=
  jObj [("count", .jnum ((db.rows.map rowTriple).length : Int)),
        ("users", jArr ((db.rows.map rowTriple).map rowObj))]

/-- Whether a JSON payload is an object carrying a top-level field named `k`. -/
def payloadHasKey (v : JsonVal) (k : String) : Bool :=
  match v with
  | .jobj fields => objHasKey fields k
  | _ => false

/-- The key/value pair a well-formed query pair denotes: the text before the
first `'='` and the text after it. -/
def pairOfChars (p : List Char) : String × String :=
  ((⟨p.takeWhile (fun c => !(decide (c = '=')))⟩ : String),
   (⟨(p.dropWhile (fun c => !(decide (c = '=')))).drop 1⟩ : String))

/-- The parameter mapping denoted by a query string in which every
`&`-separated pair has at most one `'='`: pairs without `'='` are dropped,
the others contribute their key and value. -/
def queryPairs (l : List Char) : Params :=
  ((splitPred (fun c => c = '&') l).filter (fun p => p.contains '=')).map pairOfChars

/-- Characters that survive in a single UTF-8 byte. -/
abbrev asciiChars (l : List Char) : Prop := ∀ c ∈ l, c.toNat < 128

/-- A backend failure makes `_get_users` raise on its first datastore call,
whichever branch runs. -/
theorem getUsers_fail (msg : String) (db : DB) (params : Params) :
    getUsers (some msg) db params = .error (.storageError msg) := by
  simp only [getUsers]
  repeat' split
  all_goals simp_all [dbExecSelectById, dbExecSelectAll]

/-- A backend failure makes `_create_user` raise: every path either fails
validation or reaches the INSERT, which fails. -/
theorem createUser_fail (msg : String) (db : DB) (body : Option String) :
    ∃ e, createUser (some msg) db body = .error e := by
  simp only [createUser]
  repeat' split
  all_goals try exact ⟨_, rfl⟩
  all_goals simp_all [dbExecInsert]

/-- A backend failure makes `_delete_user` raise: missing id or failing
DELETE. -/
theorem deleteUser_fail (msg : String) (db : DB) (params : Params) :
    ∃ e, deleteUser (some msg) db params = .error e := by
  simp only [deleteUser]
  repeat' split
  all_goals try exact ⟨_, rfl⟩
  all_goals simp_all [dbExecDelete]

/-- A backend failure makes `_update_user` raise: validation failure or
failing UPDATE. -/
theorem updateUser_fail (msg : String) (db : DB) (params : Params) (body : Option String) :
    ∃ e, updateUser (some msg) db params body = .error e := by
  simp only [updateUser]
  repeat' split
  all_goals try exact ⟨_, rfl⟩
  all_goals simp_all [dbExecUpdate]

/-- The `_handle_users` catch turns an exception into the 400 envelope. -/
theorem usersWrap_error (db : DB) (e : Exc) :
    usersWrap db (.error e) = (db, 400, errObj (excMsg e)) := rfl

/-- C1 (amended): a `StorageError` (a `sqlite3.Error` raised inside
`ThreadSafeDB.execute`) during the handling of a `/users` request is caught
by the blanket `except Exception` of `_handle_users` and surfaces as a 400
response carrying the error's text — it never reaches the generic 500 path.
In particular a failing GET answers exactly 400 with the error message, and
whatever the method, the status under a backend failure is 400 (or 405 for
an unrouted method), never 500. -/
theorem storage_error_maps_to_400 (msg : String) (db : DB) (params : Params)
    (method : String) (body : Option String) :
    handleUsers (some msg) db "GET" params none = (db, 400, errObj msg) ∧
    ((handleUsers (some msg) db method params body).2.1 = 400 ∨
      (handleUsers (some msg) db method params body).2.1 = 405) := by
  constructor
  · show usersWrap db (getUsers (some msg) db params) = _
    rw [getUsers_fail]
    rfl
  · unfold handleUsers
    by_cases h1 : method = "GET"
    · rw [if_pos h1, getUsers_fail]; left; rfl
    rw [if_neg h1]
    by_cases h2 : method = "POST"
    · rw [if_pos h2]
      obtain ⟨e, he⟩ := createUser_fail msg db body
      rw [he]; left; rfl
    rw [if_neg h2]
    by_cases h3 : method = "DELETE"
    · rw [if_pos h3]
      obtain ⟨e, he⟩ := deleteUser_fail msg db params
      rw [he]; left; rfl
    rw [if_neg h3]
    by_cases h4 : method = "PATCH"
    · rw [if_pos h4]
      obtain ⟨e, he⟩ := updateUser_fail msg db params body
      rw [he]; left; rfl
    rw [if_neg h4]
    right; rfl

/-- C1 counterexample: with the datastore failing (message "disk I/O
error"), a GET on `/users` answers 400 with that text — not the generic 500
the claim asserts. -/
theorem storage_error_not_500_cex :
    handleUsers (some "disk I/O error") dbEmpty "GET" [] none =
      (dbEmpty, 400, errObj "disk I/O error") ∧
    (handleUsers (some "disk I/O error") dbEmpty "GET" [] none).2.1 ≠ 500 :=
  ⟨rfl, by decide⟩

/-- C2 (amended): a POST to `/users` with a non-empty body that is not valid
JSON answers 400 with the error message "Invalid JSON format", whatever the
query parameters or datastore state; a PATCH behaves the same provided its
`id` query parameter is present and non-empty (without it, the validation of
`id` fires first and the response is still a 400, with the missing-id
message); in every case the status is 400 and never 500. -/
theorem invalid_json_gives_400 (fail : Option String) (db : DB) (params : Params)
    (s : String) (hne : s ≠ "") (hbad : jsonLoads s = none) :
    handleUsers fail db "POST" params (some s) = (db, 400, errObj "Invalid JSON format") ∧
    (truthy (dictGet params "id") = true →
      handleUsers fail db "PATCH" params (some s) = (db, 400, errObj "Invalid JSON format")) ∧
    (handleUsers fail db "PATCH" params (some s)).2.1 = 400 := by
  have hpost : handleUsers fail db "POST" params (some s) = (db, 400, errObj "Invalid JSON format") := by
    show usersWrap db (createUser fail db (some s)) = _
    simp only [createUser, if_neg hne, hbad]
    rfl
  have hpatch : truthy (dictGet params "id") = true →
      handleUsers fail db "PATCH" params (some s) = (db, 400, errObj "Invalid JSON format") := by
    intro ht
    show usersWrap db (updateUser fail db params (some s)) = _
    simp only [updateUser, ht, Bool.true_eq_false, if_false, if_neg hne, hbad]
    rfl
  refine ⟨hpost, hpatch, ?_⟩
  by_cases ht : truthy (dictGet params "id") = true
  · rw [hpatch ht]
  · have ht' : truthy (dictGet params "id") = false := by
      revert ht; cases truthy (dictGet params "id") <;> simp
    show (usersWrap db (updateUser fail db params (some s))).2.1 = 400
    simp only [updateUser, ht', if_pos rfl]
    rfl

/-- C2 witness: concrete invalid-JSON bodies on POST and on PATCH with a
present id both answer 400 "Invalid JSON format". -/
theorem invalid_json_gives_400_witness :
    handleUsers none dbEmpty "POST" [] (some "\x7b") =
      (dbEmpty, 400, errObj "Invalid JSON format") ∧
    handleUsers none dbEmpty "PATCH" [("id", "1")] (some "\x7b") =
      (dbEmpty, 400, errObj "Invalid JSON format") :=
  ⟨(invalid_json_gives_400 none dbEmpty [] "\x7b" (by decide) rfl).1,
   (invalid_json_gives_400 none dbEmpty [("id", "1")] "\x7b" (by decide) rfl).2.1 (by decide)⟩

/-- C2 counterexample: a PATCH whose body is non-empty and not valid JSON
but whose `id` query parameter is missing answers 400 with the missing-id
message, not the "Invalid JSON format" message the claim requires for every
such request. -/
theorem invalid_json_patch_cex :
    jsonLoads "oops" = none ∧
    handleUsers none dbEmpty "PATCH" [] (some "oops") =
      (dbEmpty, 400, errObj "Missing user id parameter") ∧
    "Missing user id parameter" ≠ "Invalid JSON format" :=
  ⟨rfl, rfl, by decide⟩

/-- C6 (amended): `_delete_user` fails with the missing-id `ValueError`
(caught into a 400) whenever the `id` query parameter is missing or empty;
with a non-empty `id` it issues the DELETE unconditionally — no existence
check, for any database state — and answers 200 with a confirmation naming
the id, so deleting a nonexistent id still returns 200. -/
theorem delete_spec (fail : Option String) (db : DB) (params : Params) :
    (truthy (dictGet params "id") = false →
      deleteUser fail db params = .error (.valueError "Missing user id parameter") ∧
      handleUsers fail db "DELETE" params none = (db, 400, errObj "Missing user id parameter")) ∧
    (∀ s, dictGet params "id" = some s → s ≠ "" →
      deleteUser none db params =
        .ok (dbDeleteRows db s, 200, jObj [("message", .jstr ("User " ++ s ++ " deleted"))]) ∧
      handleUsers none db "DELETE" params none =
        (dbDeleteRows db s, 200, jObj [("message", .jstr ("User " ++ s ++ " deleted"))])) := by
  constructor
  · intro hf
    have h1 : deleteUser fail db params = .error (.valueError "Missing user id parameter") := by
      simp [deleteUser, hf]
    refine ⟨h1, ?_⟩
    show usersWrap db (deleteUser fail db params) = _
    rw [h1]; rfl
  · intro s hs hne
    have ht : truthy (some s) = true := by simp [truthy, hne]
    have h1 : deleteUser none db params =
        .ok (dbDeleteRows db s, 200, jObj [("message", .jstr ("User " ++ s ++ " deleted"))]) := by
      simp [deleteUser, hs, ht, dbExecDelete]
    refine ⟨h1, ?_⟩
    show usersWrap db (deleteUser none db params) = _
    rw [h1]; rfl

/-- C6 witness: deleting id 7 from an empty table still answers 200 with the
confirmation message. -/
theorem delete_spec_witness :
    handleUsers none dbEmpty "DELETE" [("id", "7")] none =
      (dbEmpty, 200, jObj [("message", .jstr "User 7 deleted")]) :=
  (((delete_spec none dbEmpty [("id", "7")]).2 "7" rfl (by decide)).2).trans (by rfl)

/-- C6 counterexample: with the `id` query parameter supplied but empty the
delete is not issued and the response is a 400, not the 200 confirmation the
claim asserts whenever `id` is not missing. -/
theorem delete_empty_id_cex :
    dictGet [("id", "")] "id" = some "" ∧
    handleUsers none dbOne "DELETE" [("id", "")] none =
      (dbOne, 400, errObj "Missing user id parameter") ∧
    (handleUsers none dbOne "DELETE" [("id", "")] none).2.1 ≠ 200 :=
  ⟨rfl, rfl, by decide⟩

/-- C9: an `id` query parameter bound to the empty string is falsy in
Python, so every handler treats it exactly like an absent id: `_get_users`
behaves as with no `id` at all (the full listing), and `_delete_user` /
`_update_user` raise the missing-id `ValueError`, surfacing as 400 — even
though the parameter was supplied. -/
theorem empty_id_like_absent (fail : Option String) (db : DB) (params params2 : Params)
    (body : Option String)
    (h : dictGet params "id" = some "") (h2 : dictGet params2 "id" = none) :
    getUsers fail db params = getUsers fail db params2 ∧
    handleUsers fail db "DELETE" params none = (db, 400, errObj "Missing user id parameter") ∧
    handleUsers fail db "PATCH" params body = (db, 400, errObj "Missing user id parameter") := by
  have ht : truthy (dictGet params "id") = false := by rw [h]; rfl
  have ht2 : truthy (dictGet params2 "id") = false := by rw [h2]; rfl
  refine ⟨?_, ?_, ?_⟩
  · simp only [getUsers, ht, ht2, Bool.false_eq_true, if_false]
  · have hd : deleteUser fail db params = .error (.valueError "Missing user id parameter") := by
      simp [deleteUser, ht]
    show usersWrap db (deleteUser fail db params) = _
    rw [hd]; rfl
  · have hu : updateUser fail db params body = .error (.valueError "Missing user id parameter") := by
      simp [updateUser, ht]
    show usersWrap db (updateUser fail db params body) = _
    rw [hu]; rfl

/-- C9 witness: `?id=` concretely behaves like no `id`: the GET lists, the
DELETE and PATCH answer 400 missing-id. -/
theorem empty_id_like_absent_witness :
    getUsers none dbOne [("id", "")] = getUsers none dbOne [] ∧
    handleUsers none dbOne "DELETE" [("id", "")] none =
      (dbOne, 400, errObj "Missing user id parameter") ∧
    handleUsers none dbOne "PATCH" [("id", "")] (some "\x7b\"message\": \"m\"\x7d") =
      (dbOne, 400, errObj "Missing user id parameter") :=
  empty_id_like_absent none dbOne [("id", "")] [] (some "\x7b\"message\": \"m\"\x7d") rfl rfl

/-- C5 (amended): on a GET of `/users` (datastore healthy): with the `id`
query parameter absent or empty, the response is 200 with the `{count,
users}` listing of every row in the datastore's return order (so 200 with
count 0 and an empty list on an empty table); with a non-empty `id`, exactly
one lookup runs and the response is 200 with the first matching row's `id`,
`email` and `message`, or 404 with the user-not-found error when no row
matches. -/
theorem getUsers_spec (db : DB) (params : Params) :
    (truthy (dictGet params "id") = false →
      getUsers none db params = .ok (db, 200, listPayload db)) ∧
    (∀ s, dictGet params "id" = some s → s ≠ "" →
      (db.rows.filter (idMatches s) = [] →
        getUsers none db params = .ok (db, 404, errObj "User not found")) ∧
      (∀ r rest, db.rows.filter (idMatches s) = r :: rest →
        getUsers none db params = .ok (db, 200, rowObj (rowTriple r)))) := by
  constructor
  · intro hf
    simp [getUsers, hf, dbExecSelectAll, listPayload]
  · intro s hs hne
    have ht : truthy (some s) = true := by simp [truthy, hne]
    constructor
    · intro hnil
      simp [getUsers, hs, ht, dbExecSelectById, hnil]
    · intro r rest hcons
      simp [getUsers, hs, ht, dbExecSelectById, hcons]

/-- C5 witness: the empty-table scenario — GET with no `id` answers 200 with
count 0 and an empty users list; and a concrete id lookup answers the single
record. -/
theorem getUsers_spec_witness :
    getUsers none dbEmpty [] = .ok (dbEmpty, 200, jObj [("count", .jnum 0), ("users", jArr [])]) ∧
    getUsers none dbOne [("id", "1")] =
      .ok (dbOne, 200, jObj [("id", .jnum 1), ("email", .jstr "a@b.com"), ("message", .jstr "hi")]) :=
  ⟨((getUsers_spec dbEmpty []).1 rfl).trans (by rfl),
   (((getUsers_spec dbOne [("id", "1")]).2 "1" rfl (by decide)).2
      { id := 1, email := "a@b.com", password := "x", message := "hi" } [] (by rfl)).trans (by rfl)⟩

/-- C5 counterexample: with the `id` parameter present but empty, `_get_users`
answers the full `{count, users}` listing — status 200 with a `count` field
and no `id` field — neither the single-record payload nor the 404 the claim
requires whenever `id` is present. -/
theorem get_users_empty_id_cex :
    dictGet [("id", "")] "id" = some "" ∧
    getUsers none dbOne [("id", "")] =
      .ok (dbOne, 200, jObj [("count", .jnum 1), ("users", jArr [rowObj (1, "a@b.com", "hi")])]) ∧
    payloadHasKey (jObj [("count", .jnum 1), ("users", jArr [rowObj (1, "a@b.com", "hi")])]) "count" = true ∧
    payloadHasKey (jObj [("count", .jnum 1), ("users", jArr [rowObj (1, "a@b.com", "hi")])]) "id" = false :=
  ⟨rfl, rfl, rfl, rfl⟩

/-- C4: the routing of `handle_client` and `_handle_users`: `/about` answers
the about page whatever the method; `/users` runs the users endpoint, which
dispatches GET, POST, DELETE, PATCH to the four handlers and answers 405
"Method not allowed" for any other method; every other path answers 404
"Path not found". -/
theorem routing_spec (fail : Option String) (db : DB) (method path : String) (params : Params)
    (body : Option String) :
    dispatch fail db method "/about" params body = (db, .htmlAbout) ∧
    dispatch fail db method "/users" params body =
      ((handleUsers fail db method params body).1,
        .json (handleUsers fail db method params body).2.1
          (handleUsers fail db method params body).2.2) ∧
    handleUsers fail db "GET" params body = usersWrap db (getUsers fail db params) ∧
    handleUsers fail db "POST" params body = usersWrap db (createUser fail db body) ∧
    handleUsers fail db "DELETE" params body = usersWrap db (deleteUser fail db params) ∧
    handleUsers fail db "PATCH" params body = usersWrap db (updateUser fail db params body) ∧
    (method ∉ (["GET", "POST", "DELETE", "PATCH"] : List String) →
      handleUsers fail db method params body = (db, 405, errObj "Method not allowed")) ∧
    (path ≠ "/about" → path ≠ "/users" →
      dispatch fail db method path params body = (db, .json 404 (errObj "Path not found"))) := by
  refine ⟨rfl, rfl, rfl, rfl, rfl, rfl, ?_, ?_⟩
  · intro h
    simp only [List.mem_cons, List.not_mem_nil, or_false, not_or] at h
    obtain ⟨h1, h2, h3, h4⟩ := h
    unfold handleUsers
    rw [if_neg h1, if_neg h2, if_neg h3, if_neg h4]
    rfl
  · intro hp1 hp2
    unfold dispatch
    rw [if_neg hp1, if_neg hp2]

/-- C4 witness: a PUT on `/users` answers 405 and an unknown path answers
404, concretely. -/
theorem routing_spec_witness :
    handleUsers none dbEmpty "PUT" [] none = (dbEmpty, 405, errObj "Method not allowed") ∧
    dispatch none dbEmpty "GET" "/nope" [] none = (dbEmpty, .json 404 (errObj "Path not found")) :=
  ⟨(routing_spec none dbEmpty "PUT" "/users" [] none).2.2.2.2.2.2.1 (by decide),
   (routing_spec none dbEmpty "GET" "/nope" [] none).2.2.2.2.2.2.2 (by decide) (by decide)⟩

/-- The parsing stage of `handle_client` depends only on the request line
and the body: the header mapping is built and never read. -/
theorem parsedRequest_eq (raw : String) :
    parsedRequest raw = requestOfParts (firstLineOf raw) (bodyOf raw) := rfl

/-- C10: noninterference of header lines — two non-empty raw requests with
the same request line and the same body (their header lines may differ
arbitrarily) produce the same database state and the same response: the
parsed header mapping never influences routing, validation, the datastore
call, or the response. -/
theorem headers_noninterference (fail : Option String) (db : DB) (raw1 raw2 : String)
    (h1 : raw1 ≠ "") (h2 : raw2 ≠ "")
    (hfl : firstLineOf raw1 = firstLineOf raw2) (hb : bodyOf raw1 = bodyOf raw2) :
    handleClient fail db raw1 = handleClient fail db raw2 := by
  unfold handleClient
  rw [if_neg h1, if_neg h2, parsedRequest_eq, parsedRequest_eq, hfl, hb]

/-- C10 witness: two concrete requests differing only in their header lines
get identical responses. -/
theorem headers_noninterference_witness :
    handleClient none dbOne "GET /users?id=1 HTTP/1.1\r\nHost: a\r\n\r\n" =
      handleClient none dbOne "GET /users?id=1 HTTP/1.1\r\nHost: b\r\nX-Extra: 1\r\nAccept: */*\r\n\r\n" :=
  headers_noninterference none dbOne _ _ (by decide) (by decide) rfl rfl

/-- A split never returns the empty list of segments. -/
theorem splitPred_ne_nil (q : Char → Bool) (l : List Char) : splitPred q l ≠ [] := by
  induction l with
  | nil => simp [splitPred]
  | cons c cs ih =>
    by_cases h : q c
    · simp [splitPred, h]
    · obtain ⟨hd, tl, heq⟩ := List.exists_cons_of_ne_nil ih
      simp [splitPred, h, heq]

/-- Splitting yields one more segment than there are separator characters. -/
theorem splitPred_length (q : Char → Bool) (l : List Char) :
    (splitPred q l).length = l.countP q + 1 := by
  induction l with
  | nil => simp [splitPred]
  | cons c cs ih =>
    by_cases h : q c
    · simp [splitPred, h, List.countP_cons, ih]
    · obtain ⟨hd, tl, heq⟩ := List.exists_cons_of_ne_nil (splitPred_ne_nil q cs)
      have ih' := ih
      rw [heq] at ih'
      simp only [splitPred, h, if_false, Bool.false_eq_true, heq, List.countP_cons]
      simp at ih' ⊢
      omega

/-- A segment with no separator character survives the split whole. -/
theorem splitPred_count_zero (q : Char → Bool) (l : List Char)
    (h : l.countP q = 0) : splitPred q l = [l] := by
  induction l with
  | nil => rfl
  | cons c cs ih =>
    rw [List.countP_cons] at h
    by_cases hq : q c = true
    · rw [hq, if_pos rfl] at h
      omega
    · have hq' : q c = false := by simpa using hq
      rw [hq', if_neg (by simp)] at h
      have h0 : cs.countP q = 0 := by omega
      simp [splitPred, hq', ih h0]

/-- A segment with exactly one separator character splits into the part
before it and the part after it. -/
theorem splitPred_count_one (q : Char → Bool) (l : List Char)
    (h : l.countP q = 1) :
    splitPred q l = [l.takeWhile (fun c => !q c), (l.dropWhile (fun c => !q c)).drop 1] := by
  induction l with
  | nil => simp at h
  | cons c cs ih =>
    rw [List.countP_cons] at h
    by_cases hq : q c = true
    · rw [hq, if_pos rfl] at h
      have h0 : cs.countP q = 0 := by omega
      simp [splitPred, hq, splitPred_count_zero q cs h0, List.takeWhile_cons, List.dropWhile_cons]
    · have hq' : q c = false := by simpa using hq
      rw [hq', if_neg (by simp)] at h
      have h1 : cs.countP q = 1 := by omega
      have ih' := ih h1
      obtain ⟨hd, tl, heq⟩ := List.exists_cons_of_ne_nil (splitPred_ne_nil q cs)
      rw [heq] at ih'
      simp only [List.cons.injEq] at ih'
      simp [splitPred, hq', heq, List.takeWhile_cons, List.dropWhile_cons, ih'.1, ih'.2]

/-- Containment of a character matches a positive separator count. -/
theorem contains_countP_pos (l : List Char) (a : Char) :
    l.contains a = true ↔ 0 < l.countP (fun c => c = a) := by
  simp [List.countP_pos_iff]

/-- On pair lists whose members have at most one `'='` each, the `dict`
constructor succeeds and yields the key/value pairs split at the `'='`. -/
theorem dictOfPairs_ok (ps : List (List Char))
    (h : ∀ p ∈ ps, p.countP (fun c => c = '=') ≤ 1) :
    dictOfPairs (ps.filter (fun p => p.contains '=')) =
      .ok ((ps.filter (fun p => p.contains '=')).map pairOfChars) := by
  induction ps with
  | nil => rfl
  | cons p rest ih =>
    have hp := h p (List.mem_cons_self p rest)
    have hrest := ih (fun x hx => h x (List.mem_cons_of_mem _ hx))
    by_cases hc : p.contains '=' = true
    · have h1 : p.countP (fun c => c = '=') = 1 := by
        have := (contains_countP_pos p '=').mp hc
        omega
      have hm : '=' ∈ p := by simpa using hc
      have hfil : (p :: rest).filter (fun x => x.contains '=') =
          p :: rest.filter (fun x => x.contains '=') := by
        simp [List.filter_cons, hm]
      rw [hfil]
      simp only [dictOfPairs, splitPred_count_one _ _ h1, hrest, List.map_cons]
      rfl
    · have hm' : '=' ∉ p := by simpa using hc
      have hfil : (p :: rest).filter (fun x => x.contains '=') =
          rest.filter (fun x => x.contains '=') := by
        simp [List.filter_cons, hm']
      rw [hfil]
      exact hrest

/-- A pair with two or more `'='` characters splits into three or more
parts, on which the `dict` constructor raises `ValueError`. -/
theorem dictOfPairs_err (ps : List (List Char))
    (h : ∃ p ∈ ps, 2 ≤ p.countP (fun c => c = '=')) :
    ∃ e, dictOfPairs (ps.filter (fun p => p.contains '=')) = .error e := by
  induction ps with
  | nil => simp at h
  | cons p rest ih =>
    by_cases hp : 2 ≤ p.countP (fun c => c = '=')
    · have hc : p.contains '=' = true := (contains_countP_pos p '=').mpr (by omega)
      have hlen : 3 ≤ (splitPred (fun c => c = '=') p).length := by
        rw [splitPred_length]
        omega
      obtain ⟨a, l1, he1⟩ := List.exists_cons_of_ne_nil (splitPred_ne_nil (fun c => c = '=') p)
      rw [he1] at hlen
      obtain ⟨b, l2, he2⟩ := List.exists_cons_of_ne_nil
        (show l1 ≠ [] by intro h0; rw [h0] at hlen; simp at hlen)
      rw [he2] at hlen he1
      obtain ⟨d, l3, he3⟩ := List.exists_cons_of_ne_nil
        (show l2 ≠ [] by intro h0; rw [h0] at hlen; simp at hlen)
      rw [he3] at he1
      refine ⟨.valueError "dictionary update sequence element has invalid length", ?_⟩
      have hm : '=' ∈ p := by simpa using hc
      have hfil : (p :: rest).filter (fun x => x.contains '=') =
          p :: rest.filter (fun x => x.contains '=') := by
        simp [List.filter_cons, hm]
      rw [hfil]
      simp only [dictOfPairs, he1]
    · have hrest : ∃ x ∈ rest, 2 ≤ x.countP (fun c => c = '=') := by
        obtain ⟨x, hx, h2⟩ := h
        rcases List.mem_cons.mp hx with h0 | h0
        · exact absurd (h0 ▸ h2) hp
        · exact ⟨x, h0, h2⟩
      obtain ⟨e, he⟩ := ih hrest
      by_cases hc : p.contains '=' = true
      · have h1 : p.countP (fun c => c = '=') = 1 := by
          have := (contains_countP_pos p '=').mp hc
          omega
        refine ⟨e, ?_⟩
        have hm : '=' ∈ p := by simpa using hc
        have hfil : (p :: rest).filter (fun x => x.contains '=') =
            p :: rest.filter (fun x => x.contains '=') := by
          simp [List.filter_cons, hm]
        rw [hfil]
        simp only [dictOfPairs, splitPred_count_one _ _ h1, he]
        rfl
      · have hm' : '=' ∉ p := by simpa using hc
        refine ⟨e, ?_⟩
        have hfil : (p :: rest).filter (fun x => x.contains '=') =
            rest.filter (fun x => x.contains '=') := by
          simp [List.filter_cons, hm']
        rw [hfil]
        exact he

/-- C3 (amended): `_parse_parameters` splits the query string on `'&'` and
keeps only the pairs containing `'='`; when every kept pair has exactly one
`'='`, parsing succeeds and each pair contributes the key before the `'='`
and the value after it (pairs without `'='` silently dropped); but a pair
containing two or more `'='` characters makes `str.split('=')` return three
or more parts, on which `dict(...)` raises `ValueError` — so parsing the
query string can fail (the error surfaces as the generic 500). -/
theorem parseParameters_spec (s : String) :
    ((∀ p ∈ splitPred (fun c => c = '&') s.data, p.countP (fun c => c = '=') ≤ 1) →
      parseParameters s = .ok (queryPairs s.data)) ∧
    ((∃ p ∈ splitPred (fun c => c = '&') s.data, 2 ≤ p.countP (fun c => c = '=')) →
      ∃ e, parseParameters s = .error e) :=
  ⟨fun h => dictOfPairs_ok _ h, fun h => dictOfPairs_err _ h⟩

/-- C3 witness: a concrete query string with a no-`'='` pair (dropped) and
two well-formed pairs parses to exactly those two bindings. -/
theorem parseParameters_spec_witness :
    parseParameters "a=1&flag&b=2" = .ok [("a", "1"), ("b", "2")] :=
  ((parseParameters_spec "a=1&flag&b=2").1 (by decide)).trans (by rfl)

/-- C3 counterexample: the pair `id=1=2` has two `'='` characters, so
parsing raises (`dict` rejects the 3-part split) instead of truncating the
value at the second `'='`; through `handle_client` the error surfaces as the
generic 500 — contradicting the claim that query parsing never fails. -/
theorem parseParameters_fails_cex :
    parseParameters "id=1=2" =
      .error (.valueError "dictionary update sequence element has invalid length") ∧
    handleClient none dbEmpty "GET /users?id=1=2 HTTP/1.1\r\n\r\n" =
      some (dbEmpty, .json 500 (errObj "Internal server error")) :=
  ⟨rfl, rfl⟩

/-- The empty list is ASCII. -/
theorem asciiChars_nil : asciiChars [] := by intro x hx; cases hx

/-- ASCII lists concatenate to ASCII lists. -/
theorem asciiChars_append (l1 l2 : List Char) (h1 : asciiChars l1) (h2 : asciiChars l2) :
    asciiChars (l1 ++ l2) := by
  intro c hc
  rcases List.mem_append.mp hc with h | h
  · exact h1 c h
  · exact h2 c h

/-- Extending an ASCII list by an ASCII character keeps it ASCII. -/
theorem asciiChars_cons (c : Char) (l : List Char) (hc : c.toNat < 128) (h : asciiChars l) :
    asciiChars (c :: l) := by
  intro x hx
  rcases List.mem_cons.mp hx with h0 | h0
  · subst h0; exact hc
  · exact h x h0

/-- Hexadecimal digits are ASCII. -/
theorem hexDigit_ascii (n : Nat) : (hexDigit n).toNat < 128 := by
  unfold hexDigit
  split <;> decide

/-- Decimal renderings are ASCII. -/
theorem natReprAux_ascii (fuel n : Nat) : asciiChars (natReprAux fuel n) := by
  induction fuel generalizing n with
  | zero => intro c hc; simp [natReprAux] at hc
  | succ f ih =>
    intro c hc
    unfold natReprAux at hc
    split at hc
    · simp at hc
      subst hc
      exact hexDigit_ascii n
    · rcases List.mem_append.mp hc with h | h
      · exact ih (n / 10) c h
      · simp at h
        subst h
        exact hexDigit_ascii _

/-- Integer renderings are ASCII. -/
theorem intReprChars_ascii (i : Int) : asciiChars (intReprChars i) := by
  unfold intReprChars
  split
  · intro c hc
    rcases List.mem_cons.mp hc with h | h
    · subst h; decide
    · exact natReprAux_ascii _ _ c h
  · exact natReprAux_ascii _ _

/-- One escaped character of `json.dumps` output is ASCII — the point of
`ensure_ascii=True`. -/
theorem escCharList_ascii (c : Char) : asciiChars (escCharList c) := by
  unfold escCharList
  split
  · decide
  split
  · decide
  split
  · rename_i hcond
    intro x hx
    simp at hx
    subst hx
    omega
  split
  · decide
  split
  · decide
  split
  · decide
  split
  · decide
  split
  · decide
  split
  · exact asciiChars_cons _ _ (by decide) (asciiChars_cons _ _ (by decide)
      (asciiChars_cons _ _ (hexDigit_ascii _) (asciiChars_cons _ _ (hexDigit_ascii _)
        (asciiChars_cons _ _ (hexDigit_ascii _) (asciiChars_cons _ _ (hexDigit_ascii _)
          asciiChars_nil)))))
  · exact asciiChars_append _ _
      (asciiChars_cons _ _ (by decide) (asciiChars_cons _ _ (by decide)
        (asciiChars_cons _ _ (hexDigit_ascii _) (asciiChars_cons _ _ (hexDigit_ascii _)
          (asciiChars_cons _ _ (hexDigit_ascii _) (asciiChars_cons _ _ (hexDigit_ascii _)
            asciiChars_nil))))))
      (asciiChars_cons _ _ (by decide) (asciiChars_cons _ _ (by decide)
        (asciiChars_cons _ _ (hexDigit_ascii _) (asciiChars_cons _ _ (hexDigit_ascii _)
          (asciiChars_cons _ _ (hexDigit_ascii _) (asciiChars_cons _ _ (hexDigit_ascii _)
            asciiChars_nil))))))

/-- `json.dumps` of a string value is ASCII. -/
theorem dumpStrChars_ascii (s : String) : asciiChars (dumpStrChars s) := by
  show asciiChars ('"' :: (s.data.flatMap escCharList ++ ['"']))
  refine asciiChars_cons _ _ (by decide) (asciiChars_append _ _ ?_ (by decide))
  intro x hx
  obtain ⟨c, hc, hxc⟩ := List.mem_flatMap.mp hx
  exact escCharList_ascii c x hxc

mutual
/-- `json.dumps` output is ASCII, value case. -/
theorem dumpChars_ascii : ∀ v : JsonVal, asciiChars (dumpChars v)
  | .jnull => by decide
  | .jbool true => by decide
  | .jbool false => by decide
  | .jnum n => intReprChars_ascii n
  | .jstr s => dumpStrChars_ascii s
  | .jarr items =>
    asciiChars_cons _ _ (by decide)
      (asciiChars_append _ _ (dumpListChars_ascii items) (by decide))
  | .jobj fields =>
    asciiChars_cons _ _ (by decide)
      (asciiChars_append _ _ (dumpObjChars_ascii fields) (by decide))
/-- `json.dumps` output is ASCII, array-items case. -/
theorem dumpListChars_ascii : ∀ items : JsonList, asciiChars (dumpListChars items)
  | .nil => asciiChars_nil
  | .cons v .nil => dumpChars_ascii v
  | .cons v (.cons w t) =>
    asciiChars_append _ _ (dumpChars_ascii v)
      (asciiChars_cons _ _ (by decide) (asciiChars_cons _ _ (by decide)
        (dumpListChars_ascii (.cons w t))))
/-- `json.dumps` output is ASCII, object-fields case. -/
theorem dumpObjChars_ascii : ∀ fields : JsonObj, asciiChars (dumpObjChars fields)
  | .nil => asciiChars_nil
  | .cons k v .nil =>
    asciiChars_append _ _ (dumpStrChars_ascii k)
      (asciiChars_cons _ _ (by decide) (asciiChars_cons _ _ (by decide) (dumpChars_ascii v)))
  | .cons k v (.cons k2 v2 t) =>
    asciiChars_append _ _ (dumpStrChars_ascii k)
      (asciiChars_cons _ _ (by decide) (asciiChars_cons _ _ (by decide)
        (asciiChars_append _ _ (dumpChars_ascii v)
          (asciiChars_cons _ _ (by decide) (asciiChars_cons _ _ (by decide)
            (dumpObjChars_ascii (.cons k2 v2 t)))))))
end

/-- On ASCII character lists, UTF-8 length equals character count. -/
theorem utf8Len_of_ascii (l : List Char) (h : ∀ c ∈ l, c.toNat < 128) :
    (l.map charUtf8Size).sum = l.length := by
  induction l with
  | nil => rfl
  | cons c cs ih =>
    have hc : charUtf8Size c = 1 := by
      unfold charUtf8Size
      rw [if_pos (h c (List.mem_cons_self c cs))]
    simp [hc, ih (fun x hx => h x (List.mem_cons_of_mem _ hx))]
    omega

/-- C7: `_send_response` serializes the `{status_code, data}` envelope and
emits, in a single write, exactly the header block `HTTP/1.1 <status>\r\n`
(no reason phrase), `Content-Type: application/json\r\n`, `Content-Length:
<n>\r\n`, a blank line, and then the body — where `<n>` is the byte length
of the UTF-8-encoded body (the body is pure ASCII under `ensure_ascii`, so
Python's character count equals the UTF-8 byte count). -/
theorem sendResponse_spec (statusCode : Nat) (content : JsonVal) :
    sendResponse statusCode content =
      "HTTP/1.1 " ++ natRepr statusCode ++ "\r\n" ++
        "Content-Type: application/json" ++ "\r\n" ++
        "Content-Length: " ++ natRepr (utf8Len (jsonDumps (envelope statusCode content))) ++ "\r\n" ++
        "\r\n" ++ jsonDumps (envelope statusCode content) := by
  have h : utf8Len (jsonDumps (envelope statusCode content)) =
      (jsonDumps (envelope statusCode content)).length := by
    exact utf8Len_of_ascii (dumpChars (envelope statusCode content))
      (dumpChars_ascii (envelope statusCode content))
  rw [h]
  rfl

/-- C8: round-trip — a valid create (body decoding to an object carrying
`email`, `password` and `message`) inserts one row and answers 201 with the
new id; a GET whose `id` query parameter denotes that id then fetches
exactly the submitted `email` and `message` values; and neither response
payload carries a `password` field. The well-formedness hypothesis says
every existing row's id is below the AUTOINCREMENT counter, which the
schema guarantees. -/
theorem create_then_get_roundtrip (db : DB) (body : String) (fields : JsonObj)
    (email password message : String) (idStr : String)
    (hwf : ∀ r ∈ db.rows, r.id < db.nextId)
    (hne : body ≠ "")
    (hjson : jsonLoads body = some (.jobj fields))
    (hke : objHasKey fields "email" = true)
    (hkp : objHasKey fields "password" = true)
    (hkm : objHasKey fields "message" = true)
    (hge : objGet fields "email" = .jstr email)
    (hgp : objGet fields "password" = .jstr password)
    (hgm : objGet fields "message" = .jstr message)
    (hid : strToNatQ idStr = some db.nextId) :
    createUser none db (some body) =
      .ok ((dbInsertRow db email password message).1, 201,
        jObj [("message", .jstr "User created successfully"),
              ("user_id", .jnum (db.nextId : Int))]) ∧
    getUsers none (dbInsertRow db email password message).1 [("id", idStr)] =
      .ok ((dbInsertRow db email password message).1, 200,
        jObj [("id", .jnum (db.nextId : Int)), ("email", .jstr email),
              ("message", .jstr message)]) ∧
    payloadHasKey (jObj [("message", .jstr "User created successfully"),
                         ("user_id", .jnum (db.nextId : Int))]) "password" = false ∧
    payloadHasKey (jObj [("id", .jnum (db.nextId : Int)), ("email", .jstr email),
                         ("message", .jstr message)]) "password" = false := by
  have hinsert : createUser none db (some body) =
      .ok ((dbInsertRow db email password message).1, 201,
        jObj [("message", .jstr "User created successfully"),
              ("user_id", .jnum (db.nextId : Int))]) := by
    simp only [createUser, if_neg hne, hjson]
    simp [allKeysIn, pyIn, hke, hkp, hkm, pyIndex, hge, hgp, hgm, dbExecInsert, bindParam,
      dbInsertRow]
  have hne2 : idStr ≠ "" := by
    intro h0
    rw [h0] at hid
    simp [strToNatQ] at hid
  have htr : truthy (some idStr) = true := by simp [truthy, hne2]
  have hold : db.rows.filter (idMatches idStr) = [] := by
    rw [List.filter_eq_nil_iff]
    intro r hr
    simp [idMatches, hid]
    intro h0
    have := hwf r hr
    omega
  have hfilter : (dbInsertRow db email password message).1.rows.filter (idMatches idStr) =
      [{ id := db.nextId, email := email, password := password, message := message }] := by
    show (db.rows ++
        [({ id := db.nextId, email := email, password := password,
            message := message } : UserRow)]).filter (idMatches idStr) = _
    rw [List.filter_append, hold]
    simp [idMatches, hid]
  refine ⟨hinsert, ?_, rfl, rfl⟩
  simp [getUsers, dictGet, htr, dbExecSelectById, hfilter, rowObj, rowTriple]

/-- C8 witness: the concrete scenario from the spec — create a user on
the fresh database, fetch it back by the returned id 1, and observe the
submitted email and message and no password field anywhere. -/
theorem create_then_get_roundtrip_witness :
    createUser none dbEmpty
        (some "\x7b\"email\": \"a@b.com\", \"password\": \"x\", \"message\": \"hi\"\x7d") =
      .ok ((dbInsertRow dbEmpty "a@b.com" "x" "hi").1, 201,
        jObj [("message", .jstr "User created successfully"), ("user_id", .jnum 1)]) ∧
    getUsers none (dbInsertRow dbEmpty "a@b.com" "x" "hi").1 [("id", "1")] =
      .ok ((dbInsertRow dbEmpty "a@b.com" "x" "hi").1, 200,
        jObj [("id", .jnum 1), ("email", .jstr "a@b.com"), ("message", .jstr "hi")]) ∧
    payloadHasKey (jObj [("message", .jstr "User created successfully"),
                         ("user_id", .jnum 1)]) "password" = false ∧
    payloadHasKey (jObj [("id", .jnum 1), ("email", .jstr "a@b.com"),
                         ("message", .jstr "hi")]) "password" = false := by
  exact create_then_get_roundtrip dbEmpty
    "\x7b\"email\": \"a@b.com\", \"password\": \"x\", \"message\": \"hi\"\x7d"
    (JsonObj.ofList [("email", .jstr "a@b.com"), ("password", .jstr "x"),
                     ("message", .jstr "hi")])
    "a@b.com" "x" "hi" "1" (fun r hr => nomatch hr) (by decide) (by rfl)
    rfl rfl rfl rfl rfl rfl (by rfl)
